import Mathlib

/-!
Verification of the shared-file instance registry of `bot-boss`
(`sharedInstanceManager.ts`, the operative revision that defines
`instanceId` — `src/unnamed/part_001`), shallowly embedded in Lean 4.

Modelling conventions:
* JavaScript numbers that hold epoch milliseconds, pids and byte counts are
  modelled as `Int` (all values involved are exact integers).
* `SharedInstanceData` mirrors the TypeScript interface of the same name
  (part_001 lines 7-19); optional fields become `Option`.  The
  `instanceId` field of a record parsed from JSON may be absent or empty —
  both are falsy for the backfill test `!instance.instanceId` — and the
  model folds both into the empty string.
* The registry file's on-disk state is abstracted by its parse
  classification (`FileContent`): the file is missing, its content trims to
  the empty string, it fails `JSON.parse`, or it parses to a JSON document
  (`JsonDoc`), which is either an array of entries or something else.
  `JSON.parse`/`JSON.stringify` are Node built-ins (not repository code);
  serialising an entry array always produces non-blank text that parses
  back to the same array, which is what `FileContent.json` captures.
* JavaScript `Array.prototype.sort` with comparator
  `(a, b) => a.instanceId.localeCompare(b.instanceId)` is a stable
  ascending sort by `instanceId`; `localeCompare` is modelled as plain
  lexicographic comparison of the code points (the generated ids are ASCII
  hex-and-dash strings, on which default collation and code-point order
  agree), and the stable sort by Mathlib's stable `List.insertionSort`.
* `input.charCodeAt(i)` reads the i-th UTF-16 unit; the ids this code
  hashes are ASCII, where UTF-16 units and code points coincide, and the
  model reads the char's code point.
* `Array.prototype.filter` / `push` become `List.filter` / `++ [x]`.
-/

namespace BotBoss

/-- Git payload attached to an entry (interface `GitInfo` in
`vscodeInstanceService.ts`); the registry passes it through unmodified. -/
structure GitInfo where
  branch : Option String := none
  isGitRepo : Bool
  hasChanges : Option Bool := none
  remoteUrl : Option String := none
  lastCommit : Option String := none
  ahead : Option Int := none
  behind : Option Int := none
deriving Repr, DecidableEq

/-- Assistant-status payload attached to an entry (interface `CopilotInfo`
in `vscodeInstanceService.ts`); the registry passes it through unmodified.
The `status` union of string literals is modelled as `String`. -/
structure CopilotInfo where
  isInstalled : Bool
  isActive : Bool
  status : String
  lastActivity : Option String := none
  version : Option String := none
  error : Option String := none
  detailHint : Option String := none
deriving Repr, DecidableEq

/-- One persisted registry entry (interface `SharedInstanceData`,
part_001 lines 7-19).  `instanceId` is the GUID used for consistent
ordering; the empty string stands for a record missing the field. -/
structure SharedInstanceData where
  pid : Int
  sessionId : String
  instanceId : String
  name : String
  workspacePath : Option String := none
  windowTitle : Option String := none
  gitInfo : Option GitInfo := none
  copilotInfo : Option CopilotInfo := none
  lastUpdated : Int
  startTime : Int
  memory : Int
deriving Repr, DecidableEq

/-- `heartbeatIntervalMs = 5000` (part_001 line 28). -/
def heartbeatIntervalMs : Int := 5000

/-- `staleThresholdMs = 15000` (part_001 line 29). -/
def staleThresholdMs : Int := 15000

/-- `isStale` computed inside `removeStaleInstances` (part_001 lines
484-486): `age = now - instance.lastUpdated;
isStale = age >= staleThresholdMs`. -/
def isStale (now : Int) (inst : SharedInstanceData) : Bool :=
  decide (now - inst.lastUpdated ≥ staleThresholdMs)

/-- `removeStaleInstances` (part_001 lines 480-495): keep the entries that
are not stale. -/
def removeStaleInstances (now : Int) (instances : List SharedInstanceData) :
    List SharedInstanceData :=
  instances.filter (fun inst => !(isStale now inst))

/-- Lexicographic comparison of char lists: the order `localeCompare`
computes on the ASCII GUID strings this code compares. -/
def charListLe : List Char → List Char → Bool
  | [], _ => true
  | _ :: _, [] => false
  | a :: as, b :: bs =>
    if a < b then true else if b < a then false else charListLe as bs

/-- Lexicographic `≤` on strings. -/
def strLe (a b : String) : Bool := charListLe a.data b.data

/-- `charListLe` is total. -/
theorem charListLe_total : ∀ x y : List Char,
    charListLe x y = true ∨ charListLe y x = true := by
  intro x
  induction x with
  | nil => intro y; left; rfl
  | cons xh xt ih =>
    intro y
    cases y with
    | nil => right; rfl
    | cons yh yt =>
      rcases lt_trichotomy xh yh with h | h | h
      · left; simp [charListLe, h]
      · subst h
        rw [show charListLe (xh :: xt) (xh :: yt) = charListLe xt yt from
          by simp [charListLe]]
        rw [show charListLe (xh :: yt) (xh :: xt) = charListLe yt xt from
          by simp [charListLe]]
        exact ih yt
      · right; simp [charListLe, h]

/-- `charListLe` is transitive. -/
theorem charListLe_trans : ∀ x y z : List Char,
    charListLe x y = true → charListLe y z = true →
    charListLe x z = true := by
  intro x
  induction x with
  | nil => intro y z _ _; rfl
  | cons xh xt ih =>
    intro y z h1 h2
    cases y with
    | nil => simp [charListLe] at h1
    | cons yh yt =>
      cases z with
      | nil => simp [charListLe] at h2
      | cons zh zt =>
        simp only [charListLe] at h1 h2 ⊢
        by_cases hxy : xh < yh
        · by_cases hyz : yh < zh
          · simp [lt_trans hxy hyz]
          · by_cases hzy : zh < yh
            · rw [if_neg hyz, if_pos hzy] at h2
              exact absurd h2 (by simp)
            · have heq : yh = zh :=
                le_antisymm (not_lt.mp hzy) (not_lt.mp hyz)
              subst heq
              simp [hxy]
        · by_cases hyx : yh < xh
          · rw [if_neg hxy, if_pos hyx] at h1
            exact absurd h1 (by simp)
          · have heq : xh = yh :=
              le_antisymm (not_lt.mp hyx) (not_lt.mp hxy)
            subst heq
            rw [if_neg hxy, if_neg hyx] at h1
            by_cases hxz : xh < zh
            · simp [hxz]
            · by_cases hzx : zh < xh
              · rw [if_neg hxz, if_pos hzx] at h2
                exact absurd h2 (by simp)
              · rw [if_neg hxz, if_neg hzx] at h2 ⊢
                exact ih yt zt h1 h2

/-- The comparator `(a, b) => a.instanceId.localeCompare(b.instanceId)` as
an ordering relation: `instanceId` ascending, lexicographic. -/
def instanceIdLe (a b : SharedInstanceData) : Prop :=
  strLe a.instanceId b.instanceId = true

instance : DecidableRel instanceIdLe := fun a b =>
  inferInstanceAs (Decidable (strLe a.instanceId b.instanceId = true))

instance : IsTotal SharedInstanceData instanceIdLe :=
  ⟨fun a b => charListLe_total a.instanceId.data b.instanceId.data⟩

instance : IsTrans SharedInstanceData instanceIdLe :=
  ⟨fun _ _ _ h1 h2 => charListLe_trans _ _ _ h1 h2⟩

/-- `instances.sort((a, b) => a.instanceId.localeCompare(b.instanceId))`
(part_001 lines 285, 316, 631): JavaScript's stable ascending sort by
`instanceId`, modelled by the stable `insertionSort`. -/
def sortByInstanceId (instances : List SharedInstanceData) :
    List SharedInstanceData :=
  instances.insertionSort instanceIdLe

/-- The read-modify part of `updateSharedFile` run inside the file lock
(part_001 lines 271-288): drop this session's old entry, push the fresh
snapshot, reap stale entries, sort by `instanceId`.  The result is what
`writeSharedFile` persists. -/
def updateSharedFileMerge (now : Int) (currentSessionId : String)
    (instanceData : SharedInstanceData)
    (allInstances : List SharedInstanceData) : List SharedInstanceData :=
  let filteredInstances :=
    allInstances.filter (fun inst => inst.sessionId != currentSessionId)
  let cleanInstances :=
    removeStaleInstances now (filteredInstances ++ [instanceData])
  sortByInstanceId cleanInstances

/-- Shape of a successfully parsed JSON document, as far as
`readSharedFile` inspects it: an array of entries, or any non-array value
(`Array.isArray(data) ? data : []`, part_001 line 424). -/
inductive JsonDoc where
  | arr (instances : List SharedInstanceData)
  | nonArray
deriving Repr, DecidableEq

/-- On-disk state of one file path, classified exactly by the case analysis
`readSharedFile` performs (part_001 lines 409-443): missing file, content
whose `trim()` is empty, non-blank content on which `JSON.parse` throws, or
non-blank content parsing to a document. -/
inductive FileContent where
  | missing
  | blank
  | invalid
  | json (doc : JsonDoc)
deriving Repr, DecidableEq

/-- JavaScript `ToInt32`: reduce an exact integer to a signed 32-bit
value, as the `& 0xffffffff` and `<< 5` operations do. -/
def toInt32 (n : Int) : Int :=
  let m := n % 4294967296
  if m ≥ 2147483648 then m - 4294967296 else m

/-- One step of the hash loop in `generateDeterministicGUID` (part_001
line 451): `hash = ((hash << 5) - hash + input.charCodeAt(i)) &
0xffffffff` — a 32-bit shift, exact subtraction and addition, then a
32-bit truncation. -/
def hashStep (hash : Int) (code : Int) : Int :=
  toInt32 (toInt32 (hash * 32) - hash + code)

/-- The hash accumulation of `generateDeterministicGUID` over the input's
characters, starting from 0. -/
def hashString (input : String) : Int :=
  input.data.foldl (fun hash c => hashStep hash (Int.ofNat c.toNat)) 0

/-- `Math.abs(hash).toString(16)`: lowercase hex digits. -/
def natToHex (n : Nat) : String := String.mk (Nat.toDigits 16 n)

/-- `.padStart(8, '0')`. -/
def padStart8 (s : String) : String :=
  if s.length ≥ 8 then s
  else String.mk (List.replicate (8 - s.length) '0') ++ s

/-- `String.prototype.substr(start, len)`. -/
def substrFrom (s : String) (start len : Nat) : String :=
  String.mk ((s.data.drop start).take len)

/-- `generateDeterministicGUID` (part_001 lines 446-458): hash the input
to a 32-bit value, render `|hash|` as zero-padded hex, and assemble a
GUID-shaped string from its slices following the template
`hex(0,8)-hex(0,4)-4hex(1,3)-hex(0,4)-hex hex(0,4)`. -/
def generateDeterministicGUID (input : String) : String :=
  let hex := padStart8 (natToHex (hashString input).natAbs)
  substrFrom hex 0 8 ++ "-" ++ substrFrom hex 0 4 ++ "-4" ++
    substrFrom hex 1 3 ++ "-" ++ substrFrom hex 0 4 ++ "-" ++ hex ++
    substrFrom hex 0 4

/-- The backward-compatibility step of `readSharedFile` (part_001 lines
427-435): a parsed record whose `instanceId` is falsy (absent or empty)
receives one derived deterministically from its `sessionId`. -/
def backfillEntry (inst : SharedInstanceData) : SharedInstanceData :=
  if inst.instanceId = "" then
    { inst with instanceId := generateDeterministicGUID inst.sessionId }
  else inst

/-- `readSharedFile` (part_001 lines 409-443).  Every failure branch —
missing file, blank file, parse exception (caught), non-array document —
yields `[]`; a parsed array is returned with missing `instanceId`s
backfilled. -/
def readSharedFile : FileContent → List SharedInstanceData
  | FileContent.missing => []
  | FileContent.blank => []
  | FileContent.invalid => []
  | FileContent.json (JsonDoc.arr instances) => instances.map backfillEntry
  | FileContent.json JsonDoc.nonArray => []

/-- The slice of the filesystem the manager touches: whether the shared
file's parent directory exists, the shared file itself, and the sibling
temporary file `<shared>.tmp`. -/
structure FileSystem where
  dirExists : Bool
  shared : FileContent
  tmp : FileContent
deriving Repr, DecidableEq

/-- Final state of `writeSharedFile` (part_001 lines 453-475 of the write
block) on the success path: the parent directory exists (`mkdirSync` if
absent), the temporary file has been renamed away, and the shared file
holds the serialised array. -/
def writeSharedFile (instances : List SharedInstanceData)
    (fs : FileSystem) : FileSystem :=
  { fs with
    dirExists := true
    tmp := FileContent.missing
    shared := FileContent.json (JsonDoc.arr instances) }

/-- The successive filesystem states `writeSharedFile` moves through:
initial, after `mkdirSync`, after `writeFileSync` to the temporary file,
after the atomic `renameSync`. -/
def writeSharedFileStates (instances : List SharedInstanceData)
    (fs : FileSystem) : List FileSystem :=
  [fs,
   { fs with dirExists := true },
   { fs with dirExists := true, tmp := FileContent.json (JsonDoc.arr instances) },
   writeSharedFile instances fs]

/-- Public instance shape (interface `VSCodeInstance` in
`vscodeInstanceService.ts`), as populated by `convertToVSCodeInstance`. -/
structure VSCodeInstance where
  pid : Int
  name : String
  workspacePath : Option String := none
  windowTitle : Option String := none
  arguments : List String
  cpu : Int
  memory : Int
  uptime : Option String := none
  gitInfo : Option GitInfo := none
  copilotInfo : Option CopilotInfo := none
deriving Repr, DecidableEq

/-- `calculateUptimeFromSeconds` (part_001 lines 392-401).  `Math.floor`
of a JavaScript division is `Int.fdiv`; the JavaScript `%` remainder (sign
of the dividend) is `Int.tmod`. -/
def calculateUptimeFromSeconds (uptimeSeconds : Int) : String :=
  let hours := Int.fdiv uptimeSeconds 3600
  let minutes := Int.fdiv (Int.tmod uptimeSeconds 3600) 60
  if hours > 0 then s!"{hours}h {minutes}m" else s!"{minutes}m"

/-- `pat` starts the list `l` (char-for-char). -/
def startsWithChars : List Char → List Char → Bool
  | [], _ => true
  | _ :: _, [] => false
  | a :: as, b :: bs => a == b && startsWithChars as bs

/-- `pat` occurs somewhere inside `l`. -/
def containsChars (pat : List Char) : List Char → Bool
  | [] => startsWithChars pat []
  | b :: bs => startsWithChars pat (b :: bs) || containsChars pat bs

/-- The test `/VS Code - Current Instance/i.test(displayName)` (part_001
line 365): a case-insensitive substring search, since the pattern has no
regex metacharacters. -/
def containsCurrentInstanceToken (s : String) : Bool :=
  containsChars ("vs code - current instance".data)
    (s.data.map Char.toLower)

/-- The display-name enhancement of `convertToVSCodeInstance` (part_001
lines 345-377): for the entry whose pid is this process's pid, append the
workspace suffix (folder basename or workspace name, an input from the
editor API, `none` when neither exists) to the name, falling back to the
canonical current-instance label when the stored name lost the token. -/
def enhancedDisplayName (currentPid : Int) (workspaceSuffix : Option String)
    (data : SharedInstanceData) : String :=
  if data.pid = currentPid then
    match workspaceSuffix with
    | some suffix =>
      if containsCurrentInstanceToken data.name then
        data.name ++ " (" ++ suffix ++ ")"
      else
        "VS Code - Current Instance (" ++ suffix ++ ")"
    | none => data.name
  else data.name

/-- `convertToVSCodeInstance` (part_001 lines 342-386); `now` stands for
the `Date.now()` call, `currentPid` for `process.pid`, `workspaceSuffix`
for the editor-API workspace lookup. -/
def convertToVSCodeInstance (now currentPid : Int)
    (workspaceSuffix : Option String) (data : SharedInstanceData) :
    VSCodeInstance :=
  let uptime := Int.fdiv (now - data.startTime) 1000
  { pid := data.pid
    name := enhancedDisplayName currentPid workspaceSuffix data
    workspacePath := data.workspacePath
    windowTitle := data.windowTitle
    arguments := []
    cpu := 0
    memory := data.memory
    uptime := some (calculateUptimeFromSeconds uptime)
    gitInfo := data.gitInfo
    copilotInfo := data.copilotInfo }

/-- The body of `getAllInstances` (part_001 lines 305-337) without its
`try/catch`: read, reap, sort by `instanceId`, persist the pruned list
when reaping removed something, convert.  Returns the list handed to the
caller and the filesystem after the opportunistic write. -/
def getAllInstancesModel (now currentPid : Int)
    (workspaceSuffix : Option String) (fs : FileSystem) :
    List VSCodeInstance × FileSystem :=
  let sharedInstances := readSharedFile fs.shared
  let cleanInstances := removeStaleInstances now sharedInstances
  let sortedInstances := sortByInstanceId cleanInstances
  let fs2 :=
    if cleanInstances.length ≠ sharedInstances.length then
      writeSharedFile sortedInstances fs
    else fs
  (sortedInstances.map (convertToVSCodeInstance now currentPid workspaceSuffix),
   fs2)

/-- The `catch` of `getAllInstances` (part_001 lines 333-336): a thrown
error is logged and the call returns `[]` instead of propagating. -/
def getAllInstancesSafe (inner : Except String (List VSCodeInstance)) :
    List VSCodeInstance :=
  match inner with
  | Except.ok result => result
  | Except.error _ => []

/-- The `catch` of `registerCurrentInstance` (part_001 lines 94-97): a
thrown error is logged and shown as a message; the call returns
normally. -/
def registerCurrentInstanceSafe (inner : Except String Unit) : Unit :=
  match inner with
  | Except.ok u => u
  | Except.error _ => ()

/-- The `catch` around the locked removal in `cleanup` (part_001 lines
635-637): a thrown error is logged; the call returns normally. -/
def cleanupSafe (inner : Except String Unit) : Unit :=
  match inner with
  | Except.ok u => u
  | Except.error _ => ()

/-- The four externally visible steps `cleanup` (part_001 lines 605-638)
performs, in source order: stop the heartbeat timer, close the file
watcher, clear the change callbacks, then remove this session's entry
under the lock. -/
inductive CleanupAction where
  | stopHeartbeat
  | stopFileWatcher
  | clearCallbacks
  | removeOwnEntry
deriving Repr, DecidableEq, BEq

/-- Order of `cleanup`'s steps as written (part_001 lines 609-634). -/
def cleanupActions : List CleanupAction :=
  [CleanupAction.stopHeartbeat, CleanupAction.stopFileWatcher,
   CleanupAction.clearCallbacks, CleanupAction.removeOwnEntry]

/-- The locked record update of `cleanup` (part_001 lines 627-632): drop
this session's entry and sort the remainder by `instanceId`. -/
def cleanupMerge (currentSessionId : String)
    (allInstances : List SharedInstanceData) : List SharedInstanceData :=
  sortByInstanceId
    (allInstances.filter (fun inst => inst.sessionId != currentSessionId))

/-- Effect of `cleanup`'s locked section on the filesystem. -/
def cleanupRun (currentSessionId : String) (fs : FileSystem) : FileSystem :=
  writeSharedFile (cleanupMerge currentSessionId (readSharedFile fs.shared))
    fs

/-- `maxWaitTime = 5000` in `withFileLock` (part_001 line 500), in
milliseconds. -/
def maxWaitTime : Nat := 5000

/-- `checkInterval = 50` in `withFileLock` (part_001 line 501), in
milliseconds. -/
def checkInterval : Nat := 50

/-- Outcome of the lock-wait loop: the elapsed time (ms since the loop
started) at which the caller proceeds, and whether it proceeded by
force-removing a still-present marker. -/
structure AcquireResult where
  exitElapsed : Nat
  forcedRemoval : Bool
deriving Repr, DecidableEq

/-- The wait loop of `withFileLock` (part_001 lines 505-517).
`lockExists t` tells whether the marker file exists when checked at
elapsed time `t`; each poll that finds the marker and is within the
ceiling sleeps `checkInterval` milliseconds and re-checks. -/
def waitForLock (lockExists : Nat → Bool) (elapsed : Nat) : AcquireResult :=
  if lockExists elapsed then
    if elapsed > maxWaitTime then
      { exitElapsed := elapsed, forcedRemoval := true }
    else
      waitForLock lockExists (elapsed + checkInterval)
  else
    { exitElapsed := elapsed, forcedRemoval := false }
termination_by maxWaitTime + checkInterval - elapsed
decreasing_by simp only [maxWaitTime, checkInterval] at *; omega

/-- Failure point injected into `writeSharedFile`: the `try` block can
fail at `mkdirSync`, at `writeFileSync` of the temporary file, or at
`renameSync`; every failure is caught and only logged. -/
inductive WriteOutcome where
  | success
  | failMkdir
  | failTempWrite
  | failRename
deriving Repr, DecidableEq

/-- `writeSharedFile` with an injected failure point.  Whatever step
throws, the `catch` (part_001 lines 468-474) swallows the error, so the
function returns normally and the shared file keeps its previous content;
only a completed `renameSync` changes it. -/
def writeSharedFileWith (outcome : WriteOutcome)
    (instances : List SharedInstanceData) (fs : FileSystem) : FileSystem :=
  match outcome with
  | WriteOutcome.success => writeSharedFile instances fs
  | WriteOutcome.failMkdir => fs
  | WriteOutcome.failTempWrite =>
      { fs with dirExists := true, tmp := FileContent.invalid }
  | WriteOutcome.failRename =>
      { fs with dirExists := true,
                tmp := FileContent.json (JsonDoc.arr instances) }

/-- One attempt of `updateSharedFile`'s retry loop (part_001 lines
265-302): the locked read-merge-write.  Because `writeSharedFile` catches
its own errors, the attempt completes normally for every write outcome —
it can only be `Except.error` if something outside the write throws. -/
def updateSharedFileAttempt (outcome : WriteOutcome) (now : Int)
    (currentSessionId : String) (instanceData : SharedInstanceData)
    (fs : FileSystem) : Except String FileSystem :=
  Except.ok
    (writeSharedFileWith outcome
      (updateSharedFileMerge now currentSessionId instanceData
        (readSharedFile fs.shared))
      fs)

/-- `maxRetries = 5` in `updateSharedFile` (part_001 line 266). -/
def maxRetries : Nat := 5

/-- The retry loop of `updateSharedFile` (part_001 lines 269-301): run
`body` with increasing attempt index; on success return the result
together with the number of attempts used; rethrow the last error once
the attempt budget is spent. -/
def retryFrom (body : Nat → Except String FileSystem) :
    Nat → Nat → Except String (FileSystem × Nat)
  | _, 0 => Except.error "no attempts"
  | attempt, fuel + 1 =>
    match body attempt with
    | Except.ok fs => Except.ok (fs, attempt + 1)
    | Except.error e =>
      if fuel = 0 then Except.error e else retryFrom body (attempt + 1) fuel

/-- `updateSharedFile`'s loop entered at attempt 0 with the full budget. -/
def updateSharedFileRun (body : Nat → Except String FileSystem) :
    Except String (FileSystem × Nat) :=
  retryFrom body 0 maxRetries

/-- Number of entries carrying a given `sessionId`. -/
def sessionCount (sid : String) (l : List SharedInstanceData) : Nat :=
  (l.filter (fun inst => inst.sessionId == sid)).length

/-- No two entries of the list share a `sessionId`. -/
def atMostOnePerSession (l : List SharedInstanceData) : Prop :=
  l.Pairwise (fun a b => a.sessionId ≠ b.sessionId)

instance (l : List SharedInstanceData) :
    Decidable (atMostOnePerSession l) :=
  inferInstanceAs (Decidable (List.Pairwise _ l))

/-- C4: reading the registry never throws for any file state — a missing
file, an empty (blank) file, content that is not valid JSON, and valid JSON
that is not an array all yield the empty collection, and `getAllInstances`
returns `[]` rather than propagating a parse error. -/
theorem read_tolerates_all_file_states :
    readSharedFile FileContent.missing = [] ∧
    readSharedFile FileContent.blank = [] ∧
    readSharedFile FileContent.invalid = [] ∧
    readSharedFile (FileContent.json JsonDoc.nonArray) = [] ∧
    (∀ (now currentPid : Int) (workspaceSuffix : Option String)
       (fs : FileSystem), fs.shared = FileContent.invalid →
      (getAllInstancesModel now currentPid workspaceSuffix fs).1 = []) ∧
    (∀ e : String, getAllInstancesSafe (Except.error e) = []) := by
  refine ⟨rfl, rfl, rfl, rfl, ?_, fun e => rfl⟩
  intro now currentPid workspaceSuffix fs h
  simp [getAllInstancesModel, h, readSharedFile, removeStaleInstances,
    sortByInstanceId]

/-- Witness for `read_tolerates_all_file_states`: a registry file holding
the text `not json` (parse failure) makes `getAllInstances` return `[]`. -/
theorem read_tolerates_all_file_states_witness :
    (getAllInstancesModel 0 0 none
      ⟨true, FileContent.invalid, FileContent.missing⟩).1 = [] :=
  read_tolerates_all_file_states.2.2.2.2.1 0 0 none
    ⟨true, FileContent.invalid, FileContent.missing⟩ rfl

/-- C5: the write operation serializes the full collection, creates the
parent directory if absent, writes to a temporary sibling file, then
replaces the registry file by a single atomic rename; every state in the
sequence shows the registry file with either the previous complete content
or the new complete content. -/
theorem write_is_atomic :
    ∀ (instances : List SharedInstanceData) (fs : FileSystem),
      (writeSharedFile instances fs).shared =
        FileContent.json (JsonDoc.arr instances) ∧
      (writeSharedFile instances fs).dirExists = true ∧
      writeSharedFileStates instances fs =
        [fs, { fs with dirExists := true },
         { fs with dirExists := true,
                   tmp := FileContent.json (JsonDoc.arr instances) },
         writeSharedFile instances fs] ∧
      (∀ s ∈ writeSharedFileStates instances fs,
        s.shared = fs.shared ∨
        s.shared = FileContent.json (JsonDoc.arr instances)) := by
  intro instances fs
  refine ⟨rfl, rfl, rfl, ?_⟩
  intro s hs
  simp only [writeSharedFileStates, writeSharedFile, List.mem_cons,
    List.not_mem_nil, or_false] at hs
  rcases hs with h | h | h | h <;> subst h <;> simp [writeSharedFile]

/-- Witness for `write_is_atomic`: the post-temp-write intermediate state
of a concrete write still shows the old registry content. -/
theorem write_is_atomic_witness :
    (⟨true, FileContent.blank, FileContent.json (JsonDoc.arr [])⟩ :
        FileSystem).shared =
      (⟨false, FileContent.blank, FileContent.missing⟩ : FileSystem).shared ∨
    (⟨true, FileContent.blank, FileContent.json (JsonDoc.arr [])⟩ :
        FileSystem).shared = FileContent.json (JsonDoc.arr []) :=
  (write_is_atomic [] ⟨false, FileContent.blank, FileContent.missing⟩).2.2.2
    ⟨true, FileContent.blank, FileContent.json (JsonDoc.arr [])⟩ (by decide)

/-- C7: round-trip — for every entry set whose entries carry an
`instanceId` (as every entry the program writes does, so the read-side
backfill does not fire), writing it through the store and immediately
reading yields the same set; in particular both sides agree once
normalised by sorting on `instanceId`. -/
theorem write_read_roundtrip :
    ∀ (instances : List SharedInstanceData) (fs : FileSystem),
      (∀ inst ∈ instances, inst.instanceId ≠ "") →
      readSharedFile (writeSharedFile instances fs).shared = instances ∧
      sortByInstanceId
          (readSharedFile (writeSharedFile instances fs).shared) =
        sortByInstanceId instances := by
  intro instances fs h
  have hmap : instances.map backfillEntry = instances := by
    have h1 : instances.map backfillEntry = instances.map id := by
      apply List.map_congr_left
      intro a ha
      unfold backfillEntry
      rw [if_neg (h a ha)]
      rfl
    rw [h1, List.map_id]
  have hread : readSharedFile (writeSharedFile instances fs).shared =
      instances := by
    show instances.map backfillEntry = instances
    exact hmap
  rw [hread]
  exact ⟨rfl, rfl⟩

/-- Witness for `write_read_roundtrip`: a concrete singleton entry set
with a populated `instanceId` survives the write-read round trip
unchanged. -/
theorem write_read_roundtrip_witness :
    readSharedFile (writeSharedFile
        [⟨1, "s", "g", "n", none, none, none, none, 0, 0, 0⟩]
        ⟨false, FileContent.missing, FileContent.missing⟩).shared =
      [⟨1, "s", "g", "n", none, none, none, none, 0, 0, 0⟩] ∧
    sortByInstanceId (readSharedFile (writeSharedFile
        [⟨1, "s", "g", "n", none, none, none, none, 0, 0, 0⟩]
        ⟨false, FileContent.missing, FileContent.missing⟩).shared) =
      sortByInstanceId
        [⟨1, "s", "g", "n", none, none, none, none, 0, 0, 0⟩] :=
  write_read_roundtrip
    [⟨1, "s", "g", "n", none, none, none, none, 0, 0, 0⟩]
    ⟨false, FileContent.missing, FileContent.missing⟩ (by decide)

/-- C9: no exception propagates out of the public registry API operations;
each returns normally, degrading to an empty (for `getAllInstances`) or
unchanged result when the inner computation throws. -/
theorem public_api_never_throws :
    (∀ inner : Except String Unit, registerCurrentInstanceSafe inner = ()) ∧
    (∀ inner : Except String Unit, cleanupSafe inner = ()) ∧
    (∀ e : String, getAllInstancesSafe (Except.error e) = []) ∧
    (∀ result : List VSCodeInstance,
      getAllInstancesSafe (Except.ok result) = result) :=
  ⟨fun _ => rfl, fun _ => rfl, fun _ => rfl, fun _ => rfl⟩

/-- C10: the low-level write never throws — every failure during the
serialize-to-disk sequence is caught, the registry file keeps its previous
content, and the caller observes success, so the 5-attempt retry loop of
the update path finishes on its first attempt whatever the write outcome
is. -/
theorem write_failure_is_silent :
    ∀ (outcome : WriteOutcome) (instances : List SharedInstanceData)
      (now : Int) (sid : String) (d : SharedInstanceData) (fs : FileSystem),
      (outcome ≠ WriteOutcome.success →
        (writeSharedFileWith outcome instances fs).shared = fs.shared) ∧
      updateSharedFileRun
          (fun _ => updateSharedFileAttempt outcome now sid d fs) =
        Except.ok
          (writeSharedFileWith outcome
            (updateSharedFileMerge now sid d (readSharedFile fs.shared)) fs,
           1) := by
  intro outcome instances now sid d fs
  constructor
  · intro h
    cases outcome with
    | success => exact absurd rfl h
    | failMkdir => rfl
    | failTempWrite => rfl
    | failRename => rfl
  · rfl

/-- Witness for `write_failure_is_silent`: a failed rename leaves a
concrete registry file unchanged. -/
theorem write_failure_is_silent_witness :
    (writeSharedFileWith WriteOutcome.failRename []
      ⟨true, FileContent.missing, FileContent.missing⟩).shared =
      (⟨true, FileContent.missing, FileContent.missing⟩ :
        FileSystem).shared :=
  (write_failure_is_silent WriteOutcome.failRename [] 0 "s"
      ⟨1, "s", "g", "n", none, none, none, none, 0, 0, 0⟩
      ⟨true, FileContent.missing, FileContent.missing⟩).1 (by decide)

/-- C1: every operation that persists the registry — the
register/heartbeat merge, the read-path reaping, and cleanup — writes the
entry collection ordered by `instanceId` ascending (lexicographic), so the
persisted record's order is always `instanceId`-ascending. -/
theorem persisted_order_instanceId :
    (∀ (now : Int) (sid : String) (d : SharedInstanceData)
        (prior : List SharedInstanceData),
      List.Sorted instanceIdLe (updateSharedFileMerge now sid d prior)) ∧
    (∀ (now currentPid : Int) (workspaceSuffix : Option String)
        (fs : FileSystem),
      (getAllInstancesModel now currentPid workspaceSuffix fs).2.shared =
        fs.shared ∨
      ∃ l, (getAllInstancesModel now currentPid workspaceSuffix fs).2.shared =
          FileContent.json (JsonDoc.arr l) ∧
        List.Sorted instanceIdLe l) ∧
    (∀ (sid : String) (prior : List SharedInstanceData),
      List.Sorted instanceIdLe (cleanupMerge sid prior)) := by
  refine ⟨?_, ?_, ?_⟩
  · intro now sid d prior
    exact List.sorted_insertionSort instanceIdLe _
  · intro now currentPid workspaceSuffix fs
    by_cases h :
      (removeStaleInstances now (readSharedFile fs.shared)).length ≠
        (readSharedFile fs.shared).length
    · right
      refine ⟨sortByInstanceId
          (removeStaleInstances now (readSharedFile fs.shared)), ?_,
        List.sorted_insertionSort instanceIdLe _⟩
      simp [getAllInstancesModel, h, writeSharedFile]
    · left
      simp [getAllInstancesModel, h]
  · intro sid prior
    exact List.sorted_insertionSort instanceIdLe _

/-- C3: the reaping filter keeps exactly the entries whose age is strictly
below the 15000 ms threshold (age equal to the threshold is stale),
`getAllInstances` never returns a non-live entry, and when reaping removed
at least one entry the pruned sorted collection is persisted
immediately. -/
theorem staleness_reaping_spec :
    ∀ (now currentPid : Int) (workspaceSuffix : Option String)
      (l : List SharedInstanceData) (fs : FileSystem),
      (∀ inst, inst ∈ removeStaleInstances now l ↔
        (inst ∈ l ∧ now - inst.lastUpdated < staleThresholdMs)) ∧
      (∀ inst, now - inst.lastUpdated = staleThresholdMs →
        inst ∉ removeStaleInstances now l) ∧
      (∀ d ∈ sortByInstanceId
          (removeStaleInstances now (readSharedFile fs.shared)),
        now - d.lastUpdated < staleThresholdMs) ∧
      ((getAllInstancesModel now currentPid workspaceSuffix fs).1 =
        (sortByInstanceId
          (removeStaleInstances now (readSharedFile fs.shared))).map
          (convertToVSCodeInstance now currentPid workspaceSuffix)) ∧
      ((removeStaleInstances now (readSharedFile fs.shared)).length ≠
          (readSharedFile fs.shared).length →
        (getAllInstancesModel now currentPid workspaceSuffix fs).2.shared =
          FileContent.json (JsonDoc.arr (sortByInstanceId
            (removeStaleInstances now (readSharedFile fs.shared))))) := by
  intro now currentPid workspaceSuffix l fs
  have hmem : ∀ (l : List SharedInstanceData) (inst : SharedInstanceData),
      inst ∈ removeStaleInstances now l ↔
        (inst ∈ l ∧ now - inst.lastUpdated < staleThresholdMs) := by
    intro l inst
    simp [removeStaleInstances, isStale, List.mem_filter, not_le]
  refine ⟨hmem l, ?_, ?_, ?_, ?_⟩
  · intro inst h hin
    have hlt := ((hmem l inst).mp hin).2
    rw [h] at hlt
    exact absurd hlt (lt_irrefl _)
  · intro d hd
    have hd2 : d ∈ removeStaleInstances now (readSharedFile fs.shared) :=
      ((List.perm_insertionSort instanceIdLe _).mem_iff).mp hd
    exact ((hmem _ d).mp hd2).2
  · rfl
  · intro h
    simp [getAllInstancesModel, h, writeSharedFile]

/-- Witness for `staleness_reaping_spec`: an entry aged exactly 15000 ms
is reaped, and a registry holding only that entry is rewritten pruned by a
read. -/
theorem staleness_reaping_spec_witness :
    (⟨1, "b", "g", "n", none, none, none, none, 5000, 0, 0⟩ :
        SharedInstanceData) ∉
      removeStaleInstances 20000
        [⟨1, "b", "g", "n", none, none, none, none, 5000, 0, 0⟩] ∧
    (getAllInstancesModel 20000 0 none
        ⟨true, FileContent.json
          (JsonDoc.arr
            [⟨1, "b", "g", "n", none, none, none, none, 5000, 0, 0⟩]),
          FileContent.missing⟩).2.shared =
      FileContent.json (JsonDoc.arr (sortByInstanceId
        (removeStaleInstances 20000 (readSharedFile
          (FileSystem.mk true
            (FileContent.json (JsonDoc.arr
              [⟨1, "b", "g", "n", none, none, none, none, 5000, 0, 0⟩]))
            FileContent.missing).shared)))) :=
  ⟨(staleness_reaping_spec 20000 0 none
      [⟨1, "b", "g", "n", none, none, none, none, 5000, 0, 0⟩]
      ⟨true, FileContent.json
        (JsonDoc.arr
          [⟨1, "b", "g", "n", none, none, none, none, 5000, 0, 0⟩]),
        FileContent.missing⟩).2.1
      ⟨1, "b", "g", "n", none, none, none, none, 5000, 0, 0⟩ (by decide),
   (staleness_reaping_spec 20000 0 none
      [⟨1, "b", "g", "n", none, none, none, none, 5000, 0, 0⟩]
      ⟨true, FileContent.json
        (JsonDoc.arr
          [⟨1, "b", "g", "n", none, none, none, none, 5000, 0, 0⟩]),
        FileContent.missing⟩).2.2.2.2 (by decide)⟩

/-- Helper: with the marker present at every poll, the wait loop started
at a 50-divisible elapsed time within the ceiling exits exactly at
5050 ms with a forced removal. -/
theorem waitForLock_busy (n : Nat) :
    ∀ e : Nat, 5000 - e = 50 * n → e ≤ 5000 →
      waitForLock (fun _ => true) e =
        { exitElapsed := 5050, forcedRemoval := true } := by
  induction n with
  | zero =>
    intro e h he
    have he2 : e = 5000 := by omega
    subst he2
    rw [waitForLock]
    norm_num [maxWaitTime, checkInterval]
    rw [waitForLock]
    norm_num [maxWaitTime, checkInterval]
  | succ n ih =>
    intro e h he
    rw [waitForLock]
    simp only [maxWaitTime, checkInterval]
    have hgt : ¬ e > 5000 := by omega
    simp only [if_true, hgt, if_false, ite_false, ite_true]
    exact ih (e + 50) (by omega) (by omega)

/-- Helper: the wait loop's exit time never exceeds 5050 ms, from any
start time up to 5050 ms. -/
theorem waitForLock_exit_le (lockExists : Nat → Bool) :
    ∀ (k e : Nat), 5051 - e ≤ k → e ≤ 5050 →
      (waitForLock lockExists e).exitElapsed ≤ 5050 := by
  intro k
  induction k with
  | zero => intro e h he; omega
  | succ k ih =>
    intro e h he
    rw [waitForLock]
    simp only [maxWaitTime, checkInterval]
    by_cases hl : lockExists e = true
    · rw [if_pos hl]
      by_cases hgt : e > 5000
      · rw [if_pos hgt]
        exact he
      · rw [if_neg hgt]
        exact ih (e + 50) (by omega) (by omega)
    · rw [if_neg hl]
      exact he

/-- C6 counterexample: with the marker present at every poll, the caller
proceeds only at 5050 ms — strictly beyond the 5000 ms ceiling — via a
forced removal of the marker. -/
theorem lock_wait_exceeds_ceiling :
    waitForLock (fun _ => true) 0 =
      { exitElapsed := 5050, forcedRemoval := true } ∧
    5050 > maxWaitTime := by
  constructor
  · exact waitForLock_busy 100 0 (by norm_num) (by norm_num)
  · norm_num [maxWaitTime]

/-- C6 (amended): lock acquisition always terminates — the caller polls
every 50 ms and, whatever the marker's state over time, proceeds after at
most the 5 s ceiling plus one 50 ms poll interval (5050 ms), force-removing
a marker still present past the ceiling. -/
theorem lock_wait_bounded :
    ∀ lockExists : Nat → Bool,
      (waitForLock lockExists 0).exitElapsed ≤ maxWaitTime + checkInterval := by
  intro lockExists
  have h := waitForLock_exit_le lockExists 5051 0 (by norm_num) (by norm_num)
  simpa [maxWaitTime, checkInterval] using h

/-- C8 counterexample: in `cleanup` the removal of this process's entry is
the last of the four steps, so it does not happen before the heartbeat
timer, watcher and callbacks are disposed. -/
theorem cleanup_order_counterexample :
    List.indexOf CleanupAction.removeOwnEntry cleanupActions = 3 ∧
    List.indexOf CleanupAction.stopHeartbeat cleanupActions = 0 ∧
    ¬ List.indexOf CleanupAction.removeOwnEntry cleanupActions <
        List.indexOf CleanupAction.stopHeartbeat cleanupActions := by
  decide

/-- C8 (amended): on shutdown, cleanup first disposes the heartbeat
timer, the file watcher and the callback registrations, and then removes
this process's own entry (the one matching its `sessionId`) from the
record under the lock. -/
theorem cleanup_removes_own_entry :
    ∀ (sid : String) (fs : FileSystem),
      cleanupActions =
        [CleanupAction.stopHeartbeat, CleanupAction.stopFileWatcher,
         CleanupAction.clearCallbacks, CleanupAction.removeOwnEntry] ∧
      (readSharedFile (cleanupRun sid fs).shared).filter
          (fun inst => inst.sessionId == sid) = [] := by
  intro sid fs
  refine ⟨rfl, ?_⟩
  show ((cleanupMerge sid (readSharedFile fs.shared)).map
    backfillEntry).filter _ = []
  rw [List.filter_eq_nil_iff]
  intro a ha
  rcases List.mem_map.mp ha with ⟨b, hb, rfl⟩
  have hb2 : b ∈ (readSharedFile fs.shared).filter
      (fun inst => inst.sessionId != sid) :=
    ((List.perm_insertionSort instanceIdLe _).mem_iff).mp hb
  have hne := (List.mem_filter.mp hb2).2
  simp only [bne_iff_ne, ne_eq] at hne
  have hses : (backfillEntry b).sessionId = b.sessionId := by
    unfold backfillEntry
    split <;> rfl
  simp [hses, hne]

/-- Permuting a list leaves its per-session entry count unchanged. -/
theorem sessionCount_perm {l1 l2 : List SharedInstanceData}
    (h : List.Perm l1 l2) (sid : String) :
    sessionCount sid l1 = sessionCount sid l2 :=
  (h.filter _).length_eq

/-- The register/heartbeat merge writes exactly one entry carrying the
writer's `sessionId` whenever the fresh snapshot carries it and is within
the staleness threshold. -/
theorem merge_sessionCount (now : Int) (sid : String)
    (d : SharedInstanceData) (prior : List SharedInstanceData)
    (hsid : d.sessionId = sid)
    (hfresh : now - d.lastUpdated < staleThresholdMs) :
    sessionCount sid (updateSharedFileMerge now sid d prior) = 1 := by
  have h1 : updateSharedFileMerge now sid d prior =
      sortByInstanceId (removeStaleInstances now
        ((prior.filter (fun inst => inst.sessionId != sid)) ++ [d])) := rfl
  rw [h1]
  unfold sortByInstanceId
  rw [sessionCount_perm (List.perm_insertionSort instanceIdLe _) sid]
  have hstale : isStale now d = false :=
    decide_eq_false (not_le.mpr hfresh)
  have hA : ((prior.filter (fun inst => inst.sessionId != sid)).filter
      (fun inst => !(isStale now inst))).filter
        (fun inst => inst.sessionId == sid) = [] := by
    rw [List.filter_eq_nil_iff]
    intro x hx
    have hq := (List.mem_filter.mp (List.mem_filter.mp hx).1).2
    simp only [bne_iff_ne, ne_eq] at hq
    simp [hq]
  unfold sessionCount removeStaleInstances
  rw [List.filter_append, List.filter_append, List.length_append, hA]
  simp [hstale, hsid]

/-- The merge preserves the at-most-one-entry-per-session invariant. -/
theorem merge_atMostOne (now : Int) (sid : String) (d : SharedInstanceData)
    (prior : List SharedInstanceData) (hsid : d.sessionId = sid)
    (h : atMostOnePerSession prior) :
    atMostOnePerSession (updateSharedFileMerge now sid d prior) := by
  have h1 : atMostOnePerSession
      (prior.filter (fun inst => inst.sessionId != sid)) :=
    List.Pairwise.sublist (List.filter_sublist _) h
  have h2 : atMostOnePerSession
      ((prior.filter (fun inst => inst.sessionId != sid)) ++ [d]) := by
    rw [atMostOnePerSession, List.pairwise_append]
    refine ⟨h1, List.pairwise_singleton _ _, ?_⟩
    intro a ha b hb
    simp only [List.mem_singleton] at hb
    subst hb
    have hq := (List.mem_filter.mp ha).2
    simp only [bne_iff_ne, ne_eq] at hq
    rw [hsid]
    exact hq
  have h3 : atMostOnePerSession (removeStaleInstances now
      ((prior.filter (fun inst => inst.sessionId != sid)) ++ [d])) :=
    List.Pairwise.sublist (List.filter_sublist _) h2
  exact ((List.perm_insertionSort instanceIdLe _).pairwise_iff
    (fun hab hba => hab hba.symm)).mpr h3

/-- C2 counterexample: the merge dedupes only the writer's own
`sessionId`; a prior record already holding two live entries with the same
foreign `sessionId` is written back with both, so the written record is
not one-entry-per-sessionId for every prior record. -/
theorem merge_keeps_foreign_duplicates :
    sessionCount "a"
      (updateSharedFileMerge 0 "b"
        ⟨2, "b", "h", "n", none, none, none, none, 0, 0, 0⟩
        [⟨1, "a", "g", "n", none, none, none, none, 0, 0, 0⟩,
         ⟨1, "a", "g", "n", none, none, none, none, 0, 0, 0⟩]) = 2 := by
  decide

/-- C2 (amended): for every prior record, a registration or heartbeat
republish whose snapshot carries the writer's `sessionId` and is fresh
yields exactly one entry for that session (an existing entry is replaced,
not duplicated, and registering twice in a row still yields one entry);
duplicates the merge guards against are those of the writer's own session
— a prior record with at most one entry per `sessionId` keeps that
invariant, but pre-existing foreign duplicates are not collapsed. -/
theorem merge_single_entry_per_session :
    ∀ (now : Int) (sid : String) (d : SharedInstanceData)
      (prior : List SharedInstanceData),
      d.sessionId = sid → now - d.lastUpdated < staleThresholdMs →
      (sessionCount sid (updateSharedFileMerge now sid d prior) = 1 ∧
       (atMostOnePerSession prior →
        atMostOnePerSession (updateSharedFileMerge now sid d prior)) ∧
       sessionCount sid
         (updateSharedFileMerge now sid d
           (updateSharedFileMerge now sid d prior)) = 1) := by
  intro now sid d prior hsid hfresh
  exact ⟨merge_sessionCount now sid d prior hsid hfresh,
         fun h => merge_atMostOne now sid d prior hsid h,
         merge_sessionCount now sid d _ hsid hfresh⟩

/-- Witness for `merge_single_entry_per_session`: a concrete registration
and an immediate re-registration both leave exactly one entry for the
session. -/
theorem merge_single_entry_per_session_witness :
    sessionCount "s"
        (updateSharedFileMerge 0 "s"
          ⟨1, "s", "g", "n", none, none, none, none, 0, 0, 0⟩ []) = 1 ∧
    atMostOnePerSession
        (updateSharedFileMerge 0 "s"
          ⟨1, "s", "g", "n", none, none, none, none, 0, 0, 0⟩ []) ∧
    sessionCount "s"
        (updateSharedFileMerge 0 "s"
          ⟨1, "s", "g", "n", none, none, none, none, 0, 0, 0⟩
          (updateSharedFileMerge 0 "s"
            ⟨1, "s", "g", "n", none, none, none, none, 0, 0, 0⟩ [])) = 1 :=
  ⟨(merge_single_entry_per_session 0 "s"
      ⟨1, "s", "g", "n", none, none, none, none, 0, 0, 0⟩ [] rfl
      (by decide)).1,
   (merge_single_entry_per_session 0 "s"
      ⟨1, "s", "g", "n", none, none, none, none, 0, 0, 0⟩ [] rfl
      (by decide)).2.1 (by decide),
   (merge_single_entry_per_session 0 "s"
      ⟨1, "s", "g", "n", none, none, none, none, 0, 0, 0⟩ [] rfl
      (by decide)).2.2⟩

end BotBoss
